import Mathlib

/-!
Verification development for the attendance tracker desktop client
(src/app of the repository).  Python classes are shallowly embedded as
Lean structures; methods become pure functions that return the updated
structure together with the observable effects (emitted signals, API
calls attempted).  Durations are modelled as Nat seconds; the
last-reported threshold index, which the source initialises to -1, is
an Int.
-/

namespace TrackerApp

/-- The four application states of src/app/state_manager.py (class AppState). -/
inductive AppState
  | loggedOut
  | checkedIn
  | onBreak
  | forceBreak
deriving DecidableEq, Repr

/-- A JSON-ish scalar stored in the staff_settings / company_rules dicts. -/
inductive SettingValue
  | b (v : Bool)
  | s (v : String)
  | i (v : Int)
deriving DecidableEq, Repr

/-- A Python dict of settings, as an insertion-ordered association list. -/
abbrev Settings := List (String × SettingValue)

/-- Python dict assignment d[k] = v: replace the existing binding, else append. -/
def setKey (d : Settings) (k : String) (v : SettingValue) : Settings :=
  if d.any (fun p => p.1 == k) then
    d.map (fun p => if p.1 == k then (k, v) else p)
  else d ++ [(k, v)]

/-- State record of src/app/state_manager.py (StateManager.__init__, lines 25-34). -/
structure StateManager where
  state : AppState
  session_token : Option String
  staff_settings : Option Settings
  company_rules : Option Settings
  user_name : Option String
  check_in_time : Option String
  break_start_time : Option String
  late_by_minutes : Option Int
deriving DecidableEq, Repr

/-- Initial state: everything None, status LOGGED_OUT. -/
def StateManager.init : StateManager :=
  { state := AppState.loggedOut
    session_token := none
    staff_settings := none
    company_rules := none
    user_name := none
    check_in_time := none
    break_start_time := none
    late_by_minutes := none }

/-- A state_changed signal emission: the payload (new state) together with the
manager record the synchronously-invoked observers can read at emission time. -/
structure Notification where
  newState : AppState
  snapshot : StateManager
deriving DecidableEq, Repr

/-- The state property setter (state_manager.py lines 41-46): assign and emit
state_changed only when the new state differs from the current one. -/
def StateManager.setState (sm : StateManager) (ns : AppState) :
    StateManager × List Notification :=
  if sm.state ≠ ns then
    let sm1 := { sm with state := ns }
    (sm1, [⟨ns, sm1⟩])
  else (sm, [])

/-- StateManager.allow_screenshot (lines 83-92).  An empty settings dict is
falsy in Python, so it yields False like a missing dict.  A missing key
defaults to False (a bool).  A string compares against "yes"; a non-bool,
non-string value compares against Python True (the int 1). -/
def StateManager.allow_screenshot (sm : StateManager) : Bool :=
  match sm.staff_settings with
  | some ss =>
    if ss.isEmpty then false
    else
      match ss.lookup "allow_screenshot" with
      | some (SettingValue.b v) => v
      | some (SettingValue.s v) => v == "yes"
      | some (SettingValue.i v) => v == 1
      | none => false
  | none => false

/-- int(x) on a settings scalar.  Python int(True) = 1; int on a string parses
a decimal literal (non-numeric strings raise, which no caller in this
repository triggers; such a string is read as 0 here). -/
def SettingValue.toInt : SettingValue → Int
  | SettingValue.b v => if v then 1 else 0
  | SettingValue.s v => (v.toInt?).getD 0
  | SettingValue.i v => v

/-- StateManager.force_break_time (lines 94-101): minutes from staff_settings
(default 5) converted to seconds; 300 when the dict is missing or empty. -/
def StateManager.force_break_time (sm : StateManager) : Int :=
  match sm.staff_settings with
  | some ss =>
    if ss.isEmpty then 300
    else
      match ss.lookup "force_break_time" with
      | some v => v.toInt * 60
      | none => 5 * 60
  | none => 300

/-- StateManager.set_login_data (lines 103-115).  Also emits user_data_changed,
a separate signal not tracked here; the state_changed notifications are the
returned list. -/
def StateManager.set_login_data (sm : StateManager) (token : String)
    (ss : Settings) (cr : Settings) (name : String) :
    StateManager × List Notification :=
  let sm1 := { sm with
    session_token := some token
    staff_settings := some ss
    company_rules := some cr
    user_name := some name }
  sm1.setState AppState.loggedOut

/-- The keys StateManager.merge_staff_settings copies (line 123). -/
def mergeKeys : List String :=
  ["force_break_time", "allow_screenshot", "shift_start", "shift_end",
   "timezone", "grace_period", "department"]

/-- One step of the merge loop in StateManager.merge_staff_settings: copy key
k from updates into acc when present. -/
def mergeOneKey (updates : Settings) (acc : Settings) (k : String) : Settings :=
  match updates.lookup k with
  | some v => setKey acc k v
  | none => acc

/-- StateManager.merge_staff_settings (lines 117-125): no-op on an empty
update dict; otherwise copy the listed keys into staff_settings, creating
the dict when it is None. -/
def StateManager.merge_staff_settings (sm : StateManager) (updates : Settings) :
    StateManager :=
  if updates.isEmpty then sm
  else
    let ss := sm.staff_settings.getD []
    { sm with staff_settings := some (mergeKeys.foldl (mergeOneKey updates) ss) }

/-- StateManager.set_check_in (lines 127-131): record fields, then move to
CHECKED_IN through the state setter. -/
def StateManager.set_check_in (sm : StateManager) (t : String)
    (late : Option Int) : StateManager × List Notification :=
  let sm1 := { sm with check_in_time := some t, late_by_minutes := late }
  sm1.setState AppState.checkedIn

/-- StateManager.set_break_start (lines 133-136). -/
def StateManager.set_break_start (sm : StateManager) (t : String)
    (isForce : Bool) : StateManager × List Notification :=
  let sm1 := { sm with break_start_time := some t }
  sm1.setState (if isForce then AppState.forceBreak else AppState.onBreak)

/-- StateManager.set_break_end (lines 138-141). -/
def StateManager.set_break_end (sm : StateManager) :
    StateManager × List Notification :=
  let sm1 := { sm with break_start_time := none }
  sm1.setState AppState.checkedIn

/-- StateManager.set_check_out (lines 143-148). -/
def StateManager.set_check_out (sm : StateManager) :
    StateManager × List Notification :=
  let sm1 := { sm with
    check_in_time := none
    break_start_time := none
    late_by_minutes := none }
  sm1.setState AppState.loggedOut

/-- StateManager.logout (lines 150-159): clear everything, then LOGGED_OUT. -/
def StateManager.logout (sm : StateManager) : StateManager × List Notification :=
  let sm1 := { sm with
    session_token := none
    staff_settings := none
    company_rules := none
    user_name := none
    check_in_time := none
    break_start_time := none
    late_by_minutes := none }
  sm1.setState AppState.loggedOut

/-- Run a sequence of StateManager operations, concatenating the
state_changed notifications each one emits. -/
def runOps (sm : StateManager)
    (ops : List (StateManager → StateManager × List Notification)) :
    StateManager × List Notification :=
  ops.foldl (fun acc op =>
    let r := op acc.1
    (r.1, acc.2 ++ r.2)) (sm, [])

/-! Embedding of src/app/idle_tracker.py (class IdleTracker). -/

/-- Mutable fields of IdleTracker relevant to its behaviour: whether the
check timer is running and the index of the last threshold reported
(-1 meaning none, as in the source). -/
structure IdleTracker where
  last_reported_threshold_index : Int
  is_active : Bool
deriving DecidableEq, Repr

/-- IdleTracker state right after __init__ (lines 26-30). -/
def IdleTracker.initial : IdleTracker :=
  { last_reported_threshold_index := -1, is_active := false }

/-- IdleTracker.start (lines 32-39): no-op when already active, else become
active, reset the activity listener and set the last-reported index to -1. -/
def IdleTracker.start (t : IdleTracker) : IdleTracker :=
  if t.is_active then t
  else { last_reported_threshold_index := -1, is_active := true }

/-- IdleTracker.stop (lines 41-46). -/
def IdleTracker.stop (t : IdleTracker) : IdleTracker :=
  if !t.is_active then t
  else { t with is_active := false }

/-- The scan of the for-loop in IdleTracker._check_idle (lines 69-76): the
first 0-based index i with idle_seconds at least thresholds[i] and the
last-reported index strictly below i. -/
def findReportIndex (thresholds : List Nat) (idle_seconds : Nat) (last : Int) :
    Option Nat :=
  (List.range thresholds.length).find?
    (fun i => decide (thresholds.getD i 0 ≤ idle_seconds) && decide (last < (i : Int)))

/-- Observable outcome of one _check_idle tick: the updated tracker, the
idle_updated payload when the signal was emitted, whether an
api_client.report_idle call was made, and whether that call succeeded. -/
structure IdleTickResult where
  tracker : IdleTracker
  emitted : Option Nat
  attempted_report : Bool
  reported : Bool
deriving DecidableEq, Repr

/-- IdleTracker._check_idle (lines 48-76).  Inputs beyond the tracker: the
current application state, the computed idle_seconds, the threshold list
read from the state manager, and whether an attempted report_idle call
succeeds (send_ok false stands for the call raising, which the except
branch turns into a log line, leaving the index unchanged). -/
def IdleTracker.check_idle (t : IdleTracker) (state : AppState)
    (idle_seconds : Nat) (thresholds : List Nat) (send_ok : Bool) :
    IdleTickResult :=
  if state ≠ AppState.checkedIn then ⟨t, none, false, false⟩
  else
    match thresholds with
    | [] => ⟨t, some idle_seconds, false, false⟩
    | t0 :: _ =>
      if idle_seconds < t0 then
        ⟨{ t with last_reported_threshold_index := -1 }, some idle_seconds,
          false, false⟩
      else
        match findReportIndex thresholds idle_seconds
            t.last_reported_threshold_index with
        | some i =>
          if send_ok then
            ⟨{ t with last_reported_threshold_index := i }, some idle_seconds,
              true, true⟩
          else ⟨t, some idle_seconds, true, false⟩
        | none => ⟨t, some idle_seconds, false, false⟩

/-- Line 53-55 of _check_idle: idle_seconds is computed from the local
last-activity timestamp alone.  The system idle duration (second argument)
is available from the ActivityListener but is not consulted by this tick. -/
def IdleTracker.tick_idle_seconds (local_seconds : Nat)
    (_system_idle : Option Nat) : Nat :=
  local_seconds

/-- Run _check_idle (while CHECKED_IN, all reports succeeding) over a list of
idle_seconds values, recording for each tick whether it reported. -/
def runIdleTicks (t : IdleTracker) (thresholds : List Nat)
    (ticks : List Nat) : IdleTracker × List Bool :=
  ticks.foldl (fun acc idle =>
    let r := acc.1.check_idle AppState.checkedIn idle thresholds true
    (r.tracker, acc.2 ++ [r.reported])) (t, [])

/-! Embedding of src/app/activity_listener.py (the idle-duration sources). -/

/-- ActivityListener.get_seconds_since_last_activity (lines 121-129): the
elapsed time since the listener-recorded last activity, combined with the
OS-reported system idle duration by minimum when the latter is available. -/
def get_seconds_since_last_activity (app_seconds : Nat)
    (system_seconds : Option Nat) : Nat :=
  match system_seconds with
  | some s => min app_seconds s
  | none => app_seconds

/-! Embedding of src/app/screenshot_service.py (class ScreenshotService). -/

/-- The one mutable field of ScreenshotService that gates captures: whether
the capture timer is running. -/
structure ScreenshotService where
  is_active : Bool
deriving DecidableEq, Repr

/-- ScreenshotService.start (lines 33-49): begin capturing only when not
already active, screenshots are allowed, and the state is CHECKED_IN. -/
def ScreenshotService.start (svc : ScreenshotService) (sm : StateManager) :
    ScreenshotService :=
  if svc.is_active then svc
  else if !sm.allow_screenshot then svc
  else if sm.state ≠ AppState.checkedIn then svc
  else { is_active := true }

/-- ScreenshotService.stop (lines 51-57). -/
def ScreenshotService.stop (svc : ScreenshotService) : ScreenshotService :=
  if !svc.is_active then svc
  else { svc with is_active := false }

/-- One timer period.  The Qt timer only fires _capture_and_upload while the
service is active; the handler (lines 59-68) re-validates the state and the
policy, stopping without a capture when either fails, and otherwise captures
and uploads.  The Bool reports whether a capture was fired this period. -/
def ScreenshotService.tick (svc : ScreenshotService) (sm : StateManager) :
    ScreenshotService × Bool :=
  if !svc.is_active then (svc, false)
  else if sm.state ≠ AppState.checkedIn then (svc.stop, false)
  else if !sm.allow_screenshot then (svc.stop, false)
  else (svc, true)

/-- Count the captures fired over n consecutive timer periods with the
state manager unchanged throughout. -/
def runScreenshotTicks (svc : ScreenshotService) (sm : StateManager) :
    Nat → ScreenshotService × Nat
  | 0 => (svc, 0)
  | n + 1 =>
    let r := svc.tick sm
    let rest := runScreenshotTicks r.1 sm n
    (rest.1, (if r.2 then 1 else 0) + rest.2)

/-! Embedding of src/app/usage_tracker.py (class UsageTracker). -/

/-- SAMPLE_INTERVAL_MS (line 11), in milliseconds. -/
def SAMPLE_INTERVAL_MS : Nat := 10000

/-- An accumulator key: (app_name, site_url or the empty string). -/
abbrev UsageKey := String × String

/-- The accumulator dict, insertion-ordered. -/
abbrev UsageAcc := List (UsageKey × Nat)

/-- Python d.get(key, 0) on the accumulator. -/
def accGet (acc : UsageAcc) (k : UsageKey) : Nat :=
  (acc.lookup k).getD 0

/-- Python d[key] = v on the accumulator: replace or append. -/
def accSet (acc : UsageAcc) (k : UsageKey) (v : Nat) : UsageAcc :=
  if acc.any (fun p => p.1 == k) then
    acc.map (fun p => if p.1 == k then (k, v) else p)
  else acc ++ [(k, v)]

/-- Mutable fields of UsageTracker. -/
structure UsageTracker where
  accumulated : UsageAcc
  is_active : Bool
deriving DecidableEq, Repr

/-- One entry of the batch sent to POST /desktop/usage/report: site_url is
present only when the accumulated key had a non-empty site. -/
structure UsageEntry where
  app_name : String
  duration_seconds : Nat
  site_url : Option String
deriving DecidableEq, Repr

/-- Outcome of UsageTracker._report: the updated tracker, the batch of
entries handed to api_client.report_usage (empty when nothing was sent),
and whether a send was attempted at all. -/
structure UsageReportResult where
  tracker : UsageTracker
  batch : List UsageEntry
  attempted : Bool
deriving DecidableEq, Repr

/-- Build the entry for one accumulator item, skipping non-positive
durations (lines 67-73). -/
def usageEntryOf (p : UsageKey × Nat) : Option UsageEntry :=
  if p.2 = 0 then none
  else some { app_name := p.1.1
              duration_seconds := p.2
              site_url := if p.1.2 ≠ "" then some p.1.2 else none }

/-- UsageTracker._report (lines 63-84): drain the accumulator into a batch,
clear it, send; on failure re-merge every entry of the failed batch back
into the accumulator by adding its duration under the same key. -/
def UsageTracker.report (u : UsageTracker) (send_ok : Bool) :
    UsageReportResult :=
  if u.accumulated.isEmpty then ⟨u, [], false⟩
  else
    let entries := u.accumulated.filterMap usageEntryOf
    let u1 : UsageTracker := { u with accumulated := [] }
    if entries.isEmpty then ⟨u1, [], false⟩
    else if send_ok then ⟨u1, entries, true⟩
    else
      ⟨{ u1 with accumulated := entries.foldl (fun acc e =>
          let key : UsageKey := (e.app_name, e.site_url.getD "")
          accSet acc key (accGet acc key + e.duration_seconds)) [] },
        entries, true⟩

/-- UsageTracker.stop (lines 41-48): deactivate, flush what remains
(_report), then clear the accumulator. -/
def UsageTracker.stop (u : UsageTracker) (send_ok : Bool) : UsageTracker :=
  if !u.is_active then u
  else
    let r := UsageTracker.report { u with is_active := false } send_ok
    { r.tracker with accumulated := [] }

/-- UsageTracker.start (lines 29-39): activate only when the usage policy is
enabled and the state is CHECKED_IN, clearing the accumulator. -/
def UsageTracker.start (u : UsageTracker) (state : AppState)
    (policy_enabled : Bool) : UsageTracker :=
  if u.is_active then u
  else if !policy_enabled then u
  else if state ≠ AppState.checkedIn then u
  else { accumulated := [], is_active := true }

/-- UsageTracker._sample (lines 50-61): outside CHECKED_IN or with the policy
off the tracker stops (flushing; stop_send_ok tells whether that flush
send succeeds); with no foreground app name (None or empty, both falsy in
Python) the tick is skipped; otherwise the (app, site-or-empty) entry grows
by the sample interval in seconds. -/
def UsageTracker.sample (u : UsageTracker) (state : AppState)
    (policy_enabled : Bool) (app_name : Option String)
    (site_url : Option String) (stop_send_ok : Bool) : UsageTracker :=
  if state ≠ AppState.checkedIn then u.stop stop_send_ok
  else if !policy_enabled then u.stop stop_send_ok
  else
    match app_name with
    | none => u
    | some app =>
      if app = "" then u
      else
        let key : UsageKey := (app, site_url.getD "")
        { u with accumulated :=
            accSet u.accumulated key (accGet u.accumulated key
              + SAMPLE_INTERVAL_MS / 1000) }

/-! Embedding of src/app/api_client.py (the logout path) and of the
orchestrator in src/app/main.py (class AttendanceApp). -/

/-- The APIClient field the logout claims are about. -/
structure APIClient where
  session_token : Option String
deriving DecidableEq, Repr

/-- APIClient.logout (api_client.py lines 175-188): attempt the POST; on
either outcome clear the stored token locally; exceptions from the POST are
caught, so the function always returns normally (here: is total).  The POST
outcome is passed in as an Except value. -/
def APIClient.logout (c : APIClient) (post_result : Except String Unit) :
    APIClient :=
  match post_result with
  | Except.ok _ => { c with session_token := none }
  | Except.error _ => { c with session_token := none }

/-- Commands the orchestrator issues to its background services. -/
inductive ServiceCmd
  | startIdle
  | stopIdle
  | startScreenshot
  | stopScreenshot
  | startUsage
  | stopUsage
deriving DecidableEq, Repr

/-- The service start/stop calls of AttendanceApp._on_state_changed
(main.py lines 380-414), in source order, keyed by the new state:
CHECKED_IN starts the idle tracker and starts the screenshot service when
allow_screenshot holds, stopping it otherwise; ON_BREAK, FORCE_BREAK and
LOGGED_OUT each stop the idle tracker and the screenshot service.  No
usage-tracker object exists in AttendanceApp.__init__ (lines 41-77), so no
branch issues a usage command. -/
def on_state_changed (new_state : AppState) (sm : StateManager) :
    List ServiceCmd :=
  match new_state with
  | AppState.checkedIn =>
    ServiceCmd.startIdle ::
      (if sm.allow_screenshot then [ServiceCmd.startScreenshot]
       else [ServiceCmd.stopScreenshot])
  | AppState.onBreak => [ServiceCmd.stopIdle, ServiceCmd.stopScreenshot]
  | AppState.forceBreak => [ServiceCmd.stopIdle, ServiceCmd.stopScreenshot]
  | AppState.loggedOut => [ServiceCmd.stopIdle, ServiceCmd.stopScreenshot]

/-- AttendanceApp._check_force_break (main.py lines 431-459), the force-break
part: only while CHECKED_IN, when idle_seconds has reached
state_manager.force_break_time, call force_break_start and on success move
to FORCE_BREAK through set_break_start(now_str, is_force=True); the call
failing is caught and logged, leaving everything unchanged.  Returns the
updated manager, its notifications and whether the transition fired. -/
def check_force_break (sm : StateManager) (now_str : String)
    (idle_seconds : Nat) (api_ok : Bool) :
    StateManager × List Notification × Bool :=
  if sm.state ≠ AppState.checkedIn then (sm, [], false)
  else if sm.force_break_time ≤ (idle_seconds : Int) then
    if api_ok then
      let r := sm.set_break_start now_str true
      (r.1, r.2, true)
    else (sm, [], false)
  else (sm, [], false)

/-- AttendanceApp._on_activity_detected (main.py lines 461-469): while in
FORCE_BREAK, any activity calls end_break and on success returns to
CHECKED_IN via set_break_end; a failure is caught and logged. -/
def on_activity_detected (sm : StateManager) (api_ok : Bool) :
    StateManager × List Notification :=
  if sm.state = AppState.forceBreak then
    if api_ok then sm.set_break_end else (sm, [])
  else (sm, [])

/-- The components of AttendanceApp that _handle_logout touches. -/
structure AppModel where
  client : APIClient
  sm : StateManager
  idle : IdleTracker
  screenshot : ScreenshotService
deriving Repr

/-- AttendanceApp._handle_logout (main.py lines 266-293): stop the idle
tracker and the screenshot service, call APIClient.logout inside its own
try/except (so an API failure is only logged), clear the state manager and
return to the login screen; the enclosing try/except also clears the state
manager on any error, so the local session state is cleared on every path
and no error escapes. -/
def handle_logout (a : AppModel) (post_result : Except String Unit) :
    AppModel :=
  { client := a.client.logout post_result
    sm := (a.sm.logout).1
    idle := a.idle.stop
    screenshot := a.screenshot.stop }

/-! Operation alphabet for the StateManager invariant claim. -/

/-- One mutating StateManager operation together with its arguments. -/
inductive SMOp
  | setLoginData (token : String) (ss : Settings) (cr : Settings) (name : String)
  | mergeStaffSettings (updates : Settings)
  | setCheckIn (t : String) (late : Option Int)
  | setBreakStart (t : String) (isForce : Bool)
  | setBreakEnd
  | setCheckOut
  | doLogout

/-- Apply one operation to the manager (notifications discarded). -/
def applySMOp (sm : StateManager) : SMOp → StateManager
  | SMOp.setLoginData token ss cr name => (sm.set_login_data token ss cr name).1
  | SMOp.mergeStaffSettings updates => sm.merge_staff_settings updates
  | SMOp.setCheckIn t late => (sm.set_check_in t late).1
  | SMOp.setBreakStart t isForce => (sm.set_break_start t isForce).1
  | SMOp.setBreakEnd => (sm.set_break_end).1
  | SMOp.setCheckOut => (sm.set_check_out).1
  | SMOp.doLogout => (sm.logout).1

/-- The invariant of claim C10: whenever the status is ON_BREAK or
FORCE_BREAK, break_start_time is set. -/
def breakInv (sm : StateManager) : Bool :=
  match sm.state with
  | AppState.onBreak => sm.break_start_time.isSome
  | AppState.forceBreak => sm.break_start_time.isSome
  | _ => true

/-- A concrete manager whose server policy allows screenshots and which is
checked in, used to exercise the screenshot-gating claim. -/
def smAllowScreens : StateManager :=
  ((StateManager.init.set_login_data "tok"
      [("allow_screenshot", SettingValue.b true)] [] "u").1.set_check_in
        "09:00" none).1

/-! Helper lemmas (shared; not tied to a single claim). -/

/-- The state setter never touches staff_settings. -/
theorem setState_staff_settings (sm : StateManager) (ns : AppState) :
    ((sm.setState ns).1).staff_settings = sm.staff_settings := by
  unfold StateManager.setState
  split <;> rfl

/-- force_break_time depends only on staff_settings. -/
theorem force_break_time_congr {sm1 sm2 : StateManager}
    (h : sm1.staff_settings = sm2.staff_settings) :
    sm1.force_break_time = sm2.force_break_time := by
  unfold StateManager.force_break_time
  rw [h]

/-- With screenshots disallowed, no run of timer periods fires a capture,
from any service state. -/
theorem no_capture_of_not_allowed (n : Nat) :
    ∀ (svc : ScreenshotService) (sm : StateManager),
      sm.allow_screenshot = false → (runScreenshotTicks svc sm n).2 = 0 := by
  induction n with
  | zero => intro svc sm _; rfl
  | succ n ih =>
    intro svc sm h
    unfold runScreenshotTicks ScreenshotService.tick
    by_cases ha : svc.is_active
    · simp only [ha, Bool.not_true]
      by_cases hs : sm.state = AppState.checkedIn
      · simp [hs, h, ih _ _ h]
      · simp [hs, ih _ _ h]
    · simp only [Bool.not_eq_true] at ha
      simp [ha, ih _ _ h]

/-- The manager after the state setter is the input manager with the state
field replaced (also in the no-notification branch, where old and new state
coincide). -/
theorem setState_fst (sm : StateManager) (ns : AppState) :
    (sm.setState ns).1 = { sm with state := ns } := by
  unfold StateManager.setState
  split
  · rfl
  · next h =>
    have h2 : sm.state = ns := not_not.mp h
    cases sm
    simp_all

/-- The break-invariant is preserved by every single StateManager
operation. -/
theorem breakInv_step (sm : StateManager) (op : SMOp)
    (h : breakInv sm = true) : breakInv (applySMOp sm op) = true := by
  cases op with
  | setLoginData token ss cr name =>
    simp only [applySMOp, StateManager.set_login_data]
    rw [setState_fst]
    rfl
  | mergeStaffSettings updates =>
    simp only [applySMOp, StateManager.merge_staff_settings]
    split
    · exact h
    · exact h
  | setCheckIn t late =>
    simp only [applySMOp, StateManager.set_check_in]
    rw [setState_fst]
    rfl
  | setBreakStart t isForce =>
    simp only [applySMOp, StateManager.set_break_start]
    rw [setState_fst]
    cases isForce <;> rfl
  | setBreakEnd =>
    simp only [applySMOp, StateManager.set_break_end]
    rw [setState_fst]
    rfl
  | setCheckOut =>
    simp only [applySMOp, StateManager.set_check_out]
    rw [setState_fst]
    rfl
  | doLogout =>
    simp only [applySMOp, StateManager.logout]
    rw [setState_fst]
    rfl

/-- The break-invariant is preserved by every operation sequence. -/
theorem breakInv_foldl (ops : List SMOp) :
    ∀ sm : StateManager, breakInv sm = true →
      breakInv (ops.foldl applySMOp sm) = true := by
  induction ops with
  | nil => intro sm h; exact h
  | cons op rest ih =>
    intro sm h
    exact ih (applySMOp sm op) (breakInv_step sm op h)

/-! The claims. -/

/-- Claim C1: with thresholds [60, 300, 900] and the last-reported index
starting at -1, the idle tick sequence 0, 59, 60, 61, 300, 899, 900 reports
exactly at the ticks where idle_seconds is 60, 300 and 900 (three reports,
ending with index 2), and from that point a tick below 60 followed by a
tick at 60 reports exactly once more. -/
theorem c1_idle_threshold_reports :
    (runIdleTicks IdleTracker.initial.start [60, 300, 900]
        [0, 59, 60, 61, 300, 899, 900]).2
      = [false, false, true, false, true, false, true]
    ∧ (runIdleTicks IdleTracker.initial.start [60, 300, 900]
        [0, 59, 60, 61, 300, 899, 900]).1
      = { last_reported_threshold_index := 2, is_active := true }
    ∧ ∀ k : Nat, k < 60 →
        (runIdleTicks { last_reported_threshold_index := 2, is_active := true }
          [60, 300, 900] [k, 60]).2 = [false, true] := by
  refine ⟨by decide, by decide, ?_⟩
  intro k hk
  simp only [runIdleTicks, List.foldl]
  simp [IdleTracker.check_idle, hk, findReportIndex]
  decide

/-- Witness for C1 at k = 10. -/
theorem c1_idle_threshold_reports_witness :
    (runIdleTicks { last_reported_threshold_index := 2, is_active := true }
      [60, 300, 900] [10, 60]).2 = [false, true] :=
  c1_idle_threshold_reports.2.2 10 (by decide)

/-- Claim C2: assigning the current status through the state setter emits no
notification and leaves the record unchanged, while the chain
LoggedOut to CheckedIn to OnBreak to CheckedIn to LoggedOut emits exactly
four notifications, one per transition, each carrying the record with the
associated fields already updated. -/
theorem c2_notifications :
    (∀ sm : StateManager, sm.setState sm.state = (sm, []))
    ∧ (runOps StateManager.init
        [fun sm => sm.set_check_in "09:00" (some 5),
         fun sm => sm.set_break_start "10:00" false,
         fun sm => sm.set_break_end,
         fun sm => sm.set_check_out]).2.length = 4
    ∧ (runOps StateManager.init
        [fun sm => sm.set_check_in "09:00" (some 5),
         fun sm => sm.set_break_start "10:00" false,
         fun sm => sm.set_break_end,
         fun sm => sm.set_check_out]).2.map Notification.newState
      = [AppState.checkedIn, AppState.onBreak, AppState.checkedIn,
         AppState.loggedOut]
    ∧ (runOps StateManager.init
        [fun sm => sm.set_check_in "09:00" (some 5),
         fun sm => sm.set_break_start "10:00" false,
         fun sm => sm.set_break_end,
         fun sm => sm.set_check_out]).2.map
        (fun n => (n.snapshot.check_in_time, n.snapshot.break_start_time,
          n.snapshot.late_by_minutes))
      = [(some "09:00", none, some 5), (some "09:00", some "10:00", some 5),
         (some "09:00", none, some 5), (none, none, none)] := by
  refine ⟨?_, by decide, by decide, by decide⟩
  intro sm
  simp [StateManager.setState]

/-- A stopped idle tracker is inactive, whatever it was before. -/
theorem idle_stop_inactive (t : IdleTracker) : t.stop.is_active = false := by
  unfold IdleTracker.stop
  split
  · next h => simpa using h
  · rfl

/-- A stopped screenshot service is inactive, whatever it was before. -/
theorem screenshot_stop_inactive (svc : ScreenshotService) :
    svc.stop.is_active = false := by
  unfold ScreenshotService.stop
  split
  · next h => simpa using h
  · rfl

/-- StateManager.logout always produces the pristine initial record. -/
theorem logout_fst (sm : StateManager) : (sm.logout).1 = StateManager.init := by
  unfold StateManager.logout
  rw [setState_fst]
  rfl

/-- A failed-send _check_idle tick either made no report attempt, or it left
the tracker untouched and the same tick with a succeeding send reports. -/
theorem check_idle_fail_cases (t : IdleTracker) (st : AppState) (idle : Nat)
    (th : List Nat) :
    (t.check_idle st idle th false).attempted_report = false
    ∨ ((t.check_idle st idle th false).tracker = t
       ∧ (t.check_idle st idle th true).reported = true) := by
  unfold IdleTracker.check_idle
  by_cases hs : st = AppState.checkedIn
  · simp only [hs, ne_eq, not_true_eq_false, if_false]
    cases th with
    | nil => exact Or.inl rfl
    | cons t0 rest =>
      by_cases hlt : idle < t0
      · simp [hlt]
      · simp only [hlt, if_false]
        cases hfind : findReportIndex (t0 :: rest) idle
            t.last_reported_threshold_index with
        | none => simp
        | some i => simp
  · simp [hs]

/-! Claims C3 through C10. -/

/-- Claim C3, counterexample: on the transition to LoggedOut the orchestrator
issues no stop command for the usage poller, refuting the claim that all
three pollers (idle, screenshot and usage) are stopped. -/
theorem c3_counterexample :
    ServiceCmd.stopUsage ∉ on_state_changed AppState.loggedOut
      StateManager.init := by
  decide

/-- Claim C3 as amended: on CheckedIn the orchestrator starts the idle poller
and starts or stops the screenshot poller according to allow_screenshot; on
OnBreak, ForceBreak and LoggedOut it stops the idle and screenshot pollers;
it never issues any usage-poller command, the usage tracker not being wired
into the orchestrator. -/
theorem c3_poller_commands (sm : StateManager) :
    (∀ s : AppState, ServiceCmd.startUsage ∉ on_state_changed s sm
      ∧ ServiceCmd.stopUsage ∉ on_state_changed s sm)
    ∧ ServiceCmd.startIdle ∈ on_state_changed AppState.checkedIn sm
    ∧ (if sm.allow_screenshot then ServiceCmd.startScreenshot
        else ServiceCmd.stopScreenshot) ∈ on_state_changed AppState.checkedIn sm
    ∧ on_state_changed AppState.onBreak sm
      = [ServiceCmd.stopIdle, ServiceCmd.stopScreenshot]
    ∧ on_state_changed AppState.forceBreak sm
      = [ServiceCmd.stopIdle, ServiceCmd.stopScreenshot]
    ∧ on_state_changed AppState.loggedOut sm
      = [ServiceCmd.stopIdle, ServiceCmd.stopScreenshot] := by
  refine ⟨?_, ?_, ?_, rfl, rfl, rfl⟩
  · intro s
    cases s <;> cases h : sm.allow_screenshot <;> simp [on_state_changed, h]
  · cases h : sm.allow_screenshot <;> simp [on_state_changed, h]
  · cases h : sm.allow_screenshot <;> simp [on_state_changed, h]

/-- Claim C4, counterexample: at a tick where the local last-activity
timestamp is 125 seconds old and the OS reports 100 seconds of idle, the
value the idle poller uses is not the minimum of the two sources. -/
theorem c4_counterexample :
    IdleTracker.tick_idle_seconds 125 (some 100)
      ≠ get_seconds_since_last_activity 125 (some 100) := by
  decide

/-- Claim C4 as amended: ActivityListener.get_seconds_since_last_activity
does combine the two sources by minimum (100 for the 125/100 example), but
the idle-poller tick computes idle_seconds from the local last-activity
timestamp alone, so the value it publishes and reports in that example is
125, not 100. -/
theorem c4_idle_minimum :
    (∀ a s : Nat, get_seconds_since_last_activity a (some s) = min a s)
    ∧ (∀ a : Nat, get_seconds_since_last_activity a none = a)
    ∧ (∀ (a : Nat) (s : Option Nat), IdleTracker.tick_idle_seconds a s = a)
    ∧ get_seconds_since_last_activity 125 (some 100) = 100
    ∧ IdleTracker.tick_idle_seconds 125 (some 100) = 125 :=
  ⟨fun _ _ => rfl, fun _ => rfl, fun _ _ => rfl, rfl, rfl⟩

/-- Claim C5: three 10-second samples for (Chrome, site.com) accumulate 30
seconds under that key; a successful flush sends exactly one entry with
app_name Chrome, site_url site.com and duration_seconds 30 and empties the
accumulator; a failed flush re-merges the full 30 seconds back under the
same key. -/
theorem c5_usage_accumulate_flush_remerge :
    (((((UsageTracker.mk [] false).start AppState.checkedIn true).sample
        AppState.checkedIn true (some "Chrome") (some "site.com") true).sample
        AppState.checkedIn true (some "Chrome") (some "site.com") true).sample
        AppState.checkedIn true (some "Chrome") (some "site.com")
        true).accumulated
      = [(("Chrome", "site.com"), 30)]
    ∧ (((((UsageTracker.mk [] false).start AppState.checkedIn true).sample
        AppState.checkedIn true (some "Chrome") (some "site.com") true).sample
        AppState.checkedIn true (some "Chrome") (some "site.com") true).sample
        AppState.checkedIn true (some "Chrome") (some "site.com")
        true).report true
      = ⟨⟨[], true⟩, [⟨"Chrome", 30, some "site.com"⟩], true⟩
    ∧ ((((((UsageTracker.mk [] false).start AppState.checkedIn true).sample
        AppState.checkedIn true (some "Chrome") (some "site.com") true).sample
        AppState.checkedIn true (some "Chrome") (some "site.com") true).sample
        AppState.checkedIn true (some "Chrome") (some "site.com")
        true).report false).tracker.accumulated
      = [(("Chrome", "site.com"), 30)] := by
  exact ⟨rfl, rfl, rfl⟩

/-- Claim C6: from CheckedIn with idle at or above the force-break threshold
the check fires exactly once, moving to ForceBreak; any further periodic
check leaves the manager unchanged and does not fire; an activity event
ends the force break, returning to CheckedIn, after which an idle period at
the threshold fires again. -/
theorem c6_force_break_fires_once (sm : StateManager) (s1 s2 : String)
    (idle : Nat) (hin : sm.state = AppState.checkedIn)
    (hidle : sm.force_break_time ≤ (idle : Int)) :
    check_force_break sm s1 idle true
      = ((sm.set_break_start s1 true).1, (sm.set_break_start s1 true).2, true)
    ∧ (sm.set_break_start s1 true).1.state = AppState.forceBreak
    ∧ (∀ (s : String) (i : Nat) (ok : Bool),
        check_force_break (sm.set_break_start s1 true).1 s i ok
          = ((sm.set_break_start s1 true).1, [], false))
    ∧ (on_activity_detected (sm.set_break_start s1 true).1 true).1.state
        = AppState.checkedIn
    ∧ (check_force_break
        (on_activity_detected (sm.set_break_start s1 true).1 true).1 s2 idle
        true).2.2 = true := by
  have hB : (sm.set_break_start s1 true).1
      = { sm with break_start_time := some s1, state := AppState.forceBreak } := by
    simp [StateManager.set_break_start, setState_fst]
  have hA : (on_activity_detected (sm.set_break_start s1 true).1 true).1
      = { sm with break_start_time := none, state := AppState.checkedIn } := by
    simp [on_activity_detected, hB, StateManager.set_break_end, setState_fst]
  have hfb :
      ({ sm with break_start_time := none, state := AppState.checkedIn }
        : StateManager).force_break_time = sm.force_break_time :=
    force_break_time_congr rfl
  refine ⟨?_, ?_, ?_, ?_, ?_⟩
  · simp [check_force_break, hin, hidle]
  · rw [hB]
  · intro s i ok
    rw [hB]
    simp [check_force_break]
  · rw [hA]
  · rw [hA]
    simp [check_force_break, hfb, hidle]

/-- Witness for C6 at a concrete checked-in manager with the default
300-second threshold and exactly 300 seconds of idle. -/
theorem c6_force_break_fires_once_witness :
    (((StateManager.init.set_check_in "09:00" none).1.set_break_start
      "12:00" true).1).state = AppState.forceBreak :=
  (c6_force_break_fires_once (StateManager.init.set_check_in "09:00" none).1
    "12:00" "12:05" 300 (by decide) (by decide)).2.1

/-- Claim C7: a start call while allow_screenshot is false leaves every
subsequent run of timer periods capture-free, from any service state, and a
start called with allow_screenshot true while CheckedIn activates the
service, whose next period captures. -/
theorem c7_screenshot_gating :
    (∀ (svc : ScreenshotService) (sm : StateManager) (n : Nat),
        sm.allow_screenshot = false →
        (runScreenshotTicks (svc.start sm) sm n).2 = 0)
    ∧ (∀ sm : StateManager, sm.allow_screenshot = true →
        sm.state = AppState.checkedIn →
        ((ScreenshotService.mk false).start sm).is_active = true
        ∧ (((ScreenshotService.mk false).start sm).tick sm).2 = true) := by
  constructor
  · intro svc sm n h
    exact no_capture_of_not_allowed n (svc.start sm) sm h
  · intro sm h hs
    have hstart : (ScreenshotService.mk false).start sm = ⟨true⟩ := by
      simp [ScreenshotService.start, h, hs]
    rw [hstart]
    exact ⟨rfl, by simp [ScreenshotService.tick, h, hs]⟩

/-- Witness for C7: five periods after a disallowed start fire nothing; an
allowed start while checked in activates and captures. -/
theorem c7_screenshot_gating_witness :
    (runScreenshotTicks ((ScreenshotService.mk false).start StateManager.init)
      StateManager.init 5).2 = 0
    ∧ (((ScreenshotService.mk false).start smAllowScreens).is_active = true
       ∧ (((ScreenshotService.mk false).start smAllowScreens).tick
          smAllowScreens).2 = true) :=
  ⟨c7_screenshot_gating.1 (ScreenshotService.mk false) StateManager.init 5
      (by decide),
   c7_screenshot_gating.2 smAllowScreens (by decide) (by decide)⟩

/-- Claim C8: a tick whose report_idle call fails leaves the tracker exactly
as it was (last-reported index and active flag unchanged), and the same
tick with a succeeding send reports, so the next qualifying tick retries. -/
theorem c8_idle_report_failure (t : IdleTracker) (st : AppState) (idle : Nat)
    (th : List Nat)
    (h : (t.check_idle st idle th false).attempted_report = true) :
    (t.check_idle st idle th false).tracker = t
    ∧ (t.check_idle st idle th true).reported = true := by
  rcases check_idle_fail_cases t st idle th with hc | hc
  · rw [h] at hc
    exact absurd hc (by simp)
  · exact hc

/-- Witness for C8 at a fresh tracker, thresholds [60, 300, 900] and 60
seconds of idle, where the tick does attempt a report. -/
theorem c8_idle_report_failure_witness :
    (IdleTracker.check_idle ⟨-1, true⟩ AppState.checkedIn 60 [60, 300, 900]
      false).tracker = ⟨-1, true⟩
    ∧ (IdleTracker.check_idle ⟨-1, true⟩ AppState.checkedIn 60 [60, 300, 900]
      true).reported = true :=
  c8_idle_report_failure ⟨-1, true⟩ AppState.checkedIn 60 [60, 300, 900]
    (by decide)

/-- Claim C9: whatever the outcome of the logout POST, the logout handler
returns normally with the API client token cleared, the state manager reset
to the logged-out initial record, and both background services stopped. -/
theorem c9_logout_always_clears (a : AppModel) (r : Except String Unit) :
    (handle_logout a r).client.session_token = none
    ∧ (handle_logout a r).sm = StateManager.init
    ∧ (handle_logout a r).sm.state = AppState.loggedOut
    ∧ (handle_logout a r).idle.is_active = false
    ∧ (handle_logout a r).screenshot.is_active = false := by
  refine ⟨?_, ?_, ?_, ?_, ?_⟩
  · cases r <;> rfl
  · exact logout_fst a.sm
  · rw [show (handle_logout a r).sm = (a.sm.logout).1 from rfl, logout_fst]
    rfl
  · exact idle_stop_inactive a.idle
  · exact screenshot_stop_inactive a.screenshot

/-- Claim C10: every sequence of StateManager mutating operations from the
initial LoggedOut record keeps break_start_time set whenever the status is
OnBreak or ForceBreak. -/
theorem c10_break_invariant (ops : List SMOp) :
    breakInv (ops.foldl applySMOp StateManager.init) = true :=
  breakInv_foldl ops StateManager.init rfl

end TrackerApp
